import Mathlib

/-!
Verification development for the WireGuard Namespace Manager (WGNM.py).

The Python source is shallowly embedded: pure helpers become Lean functions,
stateful code becomes explicit state passing, and the effectful provisioning
routines become trace-producing functions over the outcomes of their external
calls. Integers are modelled as Nat or Int with explicit reduction mod 2 ^ 32
or 2 ^ 64 where the source relies on fixed-width arithmetic (the MD5 digest).
-/

namespace WGNM

/-! ### Python string helpers

Model of the behaviour of Python str.strip() on the ASCII whitespace
characters, and of Python sorted() on strings (lexicographic by code point,
which agrees with the String linear order of Mathlib).
-/

/-- ASCII whitespace characters removed by Python str.strip(). -/
def pyIsSpace (c : Char) : Bool :=
  c = ' ' || c = '\t' || c = '\n' || c = '\x0d' || c = '\x0b' || c = '\x0c'

/-- Python str.strip() at the character-list level. -/
def pyStrip (cs : List Char) : List Char :=
  ((cs.dropWhile pyIsSpace).reverse.dropWhile pyIsSpace).reverse

/-- Python str.strip() on strings. -/
def pyStripS (s : String) : String :=
  String.mk (pyStrip s.toList)

/-- Python sorted() on a list of strings: ascending, stable, duplicates kept. -/
def pySorted (l : List String) : List String :=
  l.mergeSort (fun a b => decide (a ≤ b))

/-! ### MD5 (hashlib.md5(...).hexdigest())

A complete executable model of the MD5 digest, used by get_uuids_hash.
All word arithmetic is Nat reduced mod 2 ^ 32.
-/

/-- Reduce to a 32-bit word. -/
def w32 (n : Nat) : Nat := n % 4294967296

/-- Left-rotate a 32-bit word by c bits. -/
def rotl32 (x c : Nat) : Nat :=
  w32 ((x <<< c) + (x >>> (32 - c)))

/-- Bitwise complement of a 32-bit word. -/
def not32 (x : Nat) : Nat := 4294967295 - w32 x

/-- The 64 MD5 round constants. -/
def md5K : List Nat :=
  [0xd76aa478, 0xe8c7b756, 0x242070db, 0xc1bdceee,
   0xf57c0faf, 0x4787c62a, 0xa8304613, 0xfd469501,
   0x698098d8, 0x8b44f7af, 0xffff5bb1, 0x895cd7be,
   0x6b901122, 0xfd987193, 0xa679438e, 0x49b40821,
   0xf61e2562, 0xc040b340, 0x265e5a51, 0xe9b6c7aa,
   0xd62f105d, 0x02441453, 0xd8a1e681, 0xe7d3fbc8,
   0x21e1cde6, 0xc33707d6, 0xf4d50d87, 0x455a14ed,
   0xa9e3e905, 0xfcefa3f8, 0x676f02d9, 0x8d2a4c8a,
   0xfffa3942, 0x8771f681, 0x6d9d6122, 0xfde5380c,
   0xa4beea44, 0x4bdecfa9, 0xf6bb4b60, 0xbebfbc70,
   0x289b7ec6, 0xeaa127fa, 0xd4ef3085, 0x04881d05,
   0xd9d4d039, 0xe6db99e5, 0x1fa27cf8, 0xc4ac5665,
   0xf4292244, 0x432aff97, 0xab9423a7, 0xfc93a039,
   0x655b59c3, 0x8f0ccc92, 0xffeff47d, 0x85845dd1,
   0x6fa87e4f, 0xfe2ce6e0, 0xa3014314, 0x4e0811a1,
   0xf7537e82, 0xbd3af235, 0x2ad7d2bb, 0xeb86d391]

/-- The 64 MD5 per-round shift amounts. -/
def md5S : List Nat :=
  [7, 12, 17, 22, 7, 12, 17, 22, 7, 12, 17, 22, 7, 12, 17, 22,
   5, 9, 14, 20, 5, 9, 14, 20, 5, 9, 14, 20, 5, 9, 14, 20,
   4, 11, 16, 23, 4, 11, 16, 23, 4, 11, 16, 23, 4, 11, 16, 23,
   6, 10, 15, 21, 6, 10, 15, 21, 6, 10, 15, 21, 6, 10, 15, 21]

/-- The MD5 nonlinear mixing function for round i. -/
def md5F (i b c d : Nat) : Nat :=
  if i < 16 then (b &&& c) ||| (not32 b &&& d)
  else if i < 32 then (d &&& b) ||| (not32 d &&& c)
  else if i < 48 then b ^^^ c ^^^ d
  else c ^^^ (b ||| not32 d)

/-- The MD5 message-word index for round i. -/
def md5G (i : Nat) : Nat :=
  if i < 16 then i
  else if i < 32 then (5 * i + 1) % 16
  else if i < 48 then (3 * i + 5) % 16
  else (7 * i) % 16

/-- Process one 16-word chunk, updating the running MD5 state. -/
def md5Chunk (h : Nat × Nat × Nat × Nat) (M : List Nat) : Nat × Nat × Nat × Nat :=
  let r := (List.range 64).foldl
    (fun (st : Nat × Nat × Nat × Nat) i =>
      let a := st.1
      let b := st.2.1
      let c := st.2.2.1
      let d := st.2.2.2
      let f := w32 (md5F i b c d + a + md5K.getD i 0 + M.getD (md5G i) 0)
      (d, w32 (b + rotl32 f (md5S.getD i 0)), b, c)) h
  (w32 (h.1 + r.1), w32 (h.2.1 + r.2.1), w32 (h.2.2.1 + r.2.2.1), w32 (h.2.2.2 + r.2.2.2))

/-- Group a byte list into little-endian 32-bit words. -/
def toWordsLE : List Nat → List Nat
  | b0 :: b1 :: b2 :: b3 :: rest =>
      (b0 + 256 * b1 + 65536 * b2 + 16777216 * b3) :: toWordsLE rest
  | _ => []

/-- Little-endian byte decomposition of a 32-bit word. -/
def wordToBytesLE (w : Nat) : List Nat :=
  [w % 256, (w / 256) % 256, (w / 65536) % 256, (w / 16777216) % 256]

/-- MD5 padding: 0x80, zeros to 56 mod 64, then the bit length as 8 LE bytes. -/
def md5Pad (msg : List Nat) : List Nat :=
  let len := msg.length
  let padLen := (56 + 64 - (len + 1) % 64) % 64
  let bitLen := (8 * len) % 18446744073709551616
  msg ++ [0x80] ++ List.replicate padLen 0 ++
    (List.range 8).map (fun i => (bitLen / 256 ^ i) % 256)

/-- Split a byte list into chunks of 64 bytes. -/
def chunksOf64 (l : List Nat) : List (List Nat) :=
  if h : l = [] then []
  else l.take 64 :: chunksOf64 (l.drop 64)
termination_by l.length
decreasing_by
  have hp : 0 < l.length := List.length_pos.mpr h
  simp only [List.length_drop]
  omega

/-- Full MD5 digest of a byte list, as 16 bytes. -/
def md5Bytes (msg : List Nat) : List Nat :=
  let chunks := chunksOf64 (md5Pad msg)
  let s := chunks.foldl (fun h ch => md5Chunk h (toWordsLE ch))
    (0x67452301, 0xefcdab89, 0x98badcfe, 0x10325476)
  wordToBytesLE s.1 ++ wordToBytesLE s.2.1 ++ wordToBytesLE s.2.2.1 ++ wordToBytesLE s.2.2.2

/-- UTF-8 encoding of one character, as bytes. -/
def utf8Bytes (c : Char) : List Nat :=
  let n := c.toNat
  if n < 128 then [n]
  else if n < 2048 then [192 ||| (n >>> 6), 128 ||| (n &&& 63)]
  else if n < 65536 then
    [224 ||| (n >>> 12), 128 ||| ((n >>> 6) &&& 63), 128 ||| (n &&& 63)]
  else
    [240 ||| (n >>> 18), 128 ||| ((n >>> 12) &&& 63),
     128 ||| ((n >>> 6) &&& 63), 128 ||| (n &&& 63)]

/-- UTF-8 bytes of a string. -/
def strUtf8 (s : String) : List Nat :=
  (s.toList.map utf8Bytes).foldr (· ++ ·) []

/-- Lowercase hex digit for a value below 16. -/
def hexDigit (n : Nat) : Char :=
  if n < 10 then Char.ofNat (48 + n) else Char.ofNat (87 + n)

/-- Two lowercase hex digits for one byte. -/
def byteHex (b : Nat) : List Char :=
  [hexDigit (b / 16 % 16), hexDigit (b % 16)]

/-- hashlib.md5(s.encode("utf-8")).hexdigest() -/
def md5Hex (s : String) : String :=
  String.mk (((md5Bytes (strUtf8 s)).map byteHex).foldr (· ++ ·) [])

/-! ### get_uuids_hash (WGNM.py lines 362-366)

Calculate hash of UUID list to detect changes: md5 of the ascending-sorted,
newline-joined sequence.
-/

/-- get_uuids_hash from WGNM.py: md5 hexdigest of "\n".join(sorted(uuids)). -/
def get_uuids_hash (uuids : List String) : String :=
  md5Hex (String.intercalate "\n" (pySorted uuids))

/-! ### Subnet octet derivation

The expression (port % 250) + 2 appears verbatim in create_setup (line 2178),
restore_setup (line 690), the WireGuard restart path (line 2570), delete_setup
(line 2700) and the debug paths (lines 2853, 2882). One definition per call
site, so that the agreement of the paths is a theorem rather than a
definition.
-/

/-- subnet_octet as computed in create_setup (WGNM.py line 2178). -/
def subnet_octet_create (port : Nat) : Nat := port % 250 + 2

/-- subnet_octet as computed in restore_setup (WGNM.py line 690). -/
def subnet_octet_restore (port : Nat) : Nat := port % 250 + 2

/-- subnet_octet as computed in delete_setup (WGNM.py line 2700). -/
def subnet_octet_delete (port : Nat) : Nat := port % 250 + 2

/-- subnet_octet as computed in the debug path (WGNM.py line 2853). -/
def subnet_octet_debug (port : Nat) : Nat := port % 250 + 2

/-! ### Credential extraction, extract_uuids_from_sqlite (WGNM.py lines 1586-1673)

The sqlite rows are represented by the string values the Python code reads
from them: for each VLESS row of the proxies table, the settings id value
when the row passes the truthiness and JSON checks (none otherwise); for each
row of the users table, the uuid column value when it is a string (none
otherwise). The aggregation logic over those values is translated verbatim.
-/

/-- A credential-source database as seen by extract_uuids_from_sqlite. -/
structure PanelDB where
  /-- The proxies table exists with settings and user_id columns. -/
  hasProxiesSchema : Bool
  /-- Per VLESS proxies row: settings id value, when all checks pass. -/
  proxiesSettingsIds : List (Option String)
  /-- The users table exists with a uuid column. -/
  hasUsersUuidSchema : Bool
  /-- Per users row: the uuid column value, when it is a string. -/
  usersUuidValues : List (Option String)
  /-- Result of the raw byte-scan fallback on this file. -/
  rawScanResult : List String

/-- First pass (lines 1612-1635): append each stripped nonempty settings id,
without any deduplication. -/
def proxies_pass (db : PanelDB) : List String :=
  if db.hasProxiesSchema then
    db.proxiesSettingsIds.foldl
      (fun acc o =>
        match o with
        | some v => if pyStripS v ≠ "" then acc ++ [pyStripS v] else acc
        | none => acc)
      []
  else []

/-- Second pass (lines 1640-1656): append each stripped nonempty users uuid
only if it is not already in the accumulated list. -/
def users_fold : List (Option String) → List String → List String
  | [], acc => acc
  | none :: rest, acc => users_fold rest acc
  | some val :: rest, acc =>
      users_fold rest
        (if pyStripS val ≠ "" ∧ pyStripS val ∉ acc then acc ++ [pyStripS val] else acc)

/-- extract_uuids_from_sqlite from WGNM.py: proxies pass, then users pass,
then the raw-scan fallback when nothing structured was found. -/
def extract_uuids_from_sqlite (db : PanelDB) : List String :=
  let u1 := proxies_pass db
  let u2 := if db.hasUsersUuidSchema then users_fold db.usersUuidValues u1 else u1
  if u2 = [] then db.rawScanResult else u2

/-! ### Change detector, refresh_uuids_for_all_namespaces (WGNM.py lines 1256-1359)

The persisted detector state: the in-memory LAST_UUID_HASH, the contents of
UUID_HASH_FILE (none when the file is missing) and the parsed contents of
UUID_DB_MTIME_FILE. Modification times are modelled as Int (the Python float
round-trips exactly through its file representation).
-/

/-- The detector state before a refresh call. -/
structure RefreshState where
  /-- LAST_UUID_HASH, the in-process hash of the last applied list. -/
  memHash : Option String
  /-- Contents of UUID_HASH_FILE, none when the file does not exist. -/
  fileHash : Option String
  /-- Parsed contents of UUID_DB_MTIME_FILE, none when missing or invalid. -/
  fileMtime : Option Int

/-- load_last_uuid_hash (lines 302-310): read and strip the hash file. -/
def load_last_uuid_hash (fileHash : Option String) : Option String :=
  match fileHash with
  | none => none
  | some s => some (pyStripS s)

/-- Line 1291: the file changed when no mtime was recorded or it differs. -/
def db_file_changed (fileMtime dbMtime : Option Int) : Bool :=
  decide (fileMtime = none) || decide (dbMtime ≠ fileMtime)

/-- Python truthiness of an optional mtime (none and 0.0 are falsy). -/
def mtimeTruthy (m : Option Int) : Bool :=
  match m with
  | none => false
  | some v => decide (v ≠ 0)

/-- Lines 1289-1328: the uuids_changed decision, on the pre-call state.
When the mtime changed the stored hash file is first cleared to the empty
string (line 1296); a loaded empty hash is treated as absent (lines
1307-1309); the in-memory hash takes precedence over the file (line 1313). -/
def refresh_decide (st : RefreshState) (dbMtime : Option Int) (uuids : List String)
    (force : Bool) : Bool :=
  let changed := db_file_changed st.fileMtime dbMtime
  let fileHash1 := if changed then some "" else st.fileHash
  let oldFromFile :=
    match load_last_uuid_hash fileHash1 with
    | none => none
    | some s => if s = "" then none else some s
  let current := get_uuids_hash uuids
  let old :=
    match st.memHash with
    | some h => some h
    | none => oldFromFile
  decide (old = none) || decide (old ≠ some current) || changed || force

/-- Lines 1293-1321: the state left behind by one refresh call. When the
extraction is empty the call returns early (line 1301), after the possible
hash-file clearing; otherwise the hash is recomputed and persisted, and the
mtime is persisted when truthy (lines 1314-1321). -/
def refresh_step (st : RefreshState) (dbMtime : Option Int) (uuids : List String) :
    RefreshState :=
  let changed := db_file_changed st.fileMtime dbMtime
  let fileHash1 := if changed then some "" else st.fileHash
  if uuids = [] then ⟨st.memHash, fileHash1, st.fileMtime⟩
  else
    let current := get_uuids_hash uuids
    ⟨some current, some current, if mtimeTruthy dbMtime then dbMtime else st.fileMtime⟩

/-- The state of a process that never refreshed and has no persisted files. -/
def refreshInitialState : RefreshState := ⟨none, none, none⟩

/-- The prior stored hash as the specification describes it: the in-memory
last-applied hash, falling back to the persisted hash file, an empty stored
value counting as absent. -/
def storedHash (st : RefreshState) : Option String :=
  match st.memHash with
  | some h => some h
  | none =>
    match load_last_uuid_hash st.fileHash with
    | none => none
    | some s => if s = "" then none else some s

/-- Modelled from the spec: the ShouldSync decision of section 4.7, a plain
disjunction over the claimed inputs. -/
def shouldSyncSpec (force sourceChanged : Bool) (lastHash : Option String)
    (currentHash : String) : Bool :=
  force || sourceChanged || decide (lastHash = none) || decide (lastHash ≠ some currentHash)

/-! ### Namespace provisioner, create_setup (WGNM.py lines 2171-2410)

The checked fallible steps of create_setup and their cleanup paths, as a
function from the outcomes of the external calls to the trace of resources
created (in creation order), resources torn down (in execution order), and
whether the state store entry was written. The unchecked configuration
commands between the checkpoints cannot abort the call and are not part of
the failure analysis.
-/

/-- Resources created by one create_setup call. -/
inductive CRes
  /-- The network namespace (ip netns add, line 2224). -/
  | ns
  /-- The veth pair (ip link add, line 2236). -/
  | veth
  /-- The WireGuard interface (ip link add type wireguard, line 2293). -/
  | wg
deriving DecidableEq

/-- Outcomes of the checked external calls in create_setup. -/
structure CreateFlags where
  /-- resolve_endpoint_ip returned a nonempty IP (line 2217). -/
  resolveOk : Bool
  /-- First ip netns add succeeded (line 2224). -/
  nsAddOk : Bool
  /-- Retry ip netns add after cleanup succeeded (line 2228). -/
  nsRetryOk : Bool
  /-- ip link add veth succeeded (line 2236). -/
  vethOk : Bool
  /-- ip link add wireguard succeeded (line 2293). -/
  wgAddOk : Bool
  /-- wg setconf succeeded (line 2306). -/
  setconfOk : Bool

/-- create_setup from WGNM.py: returns the resources created in order, the
teardown actions executed in order, and whether save_setup_state ran
(line 2409). -/
def create_setup (f : CreateFlags) : List CRes × List CRes × Bool :=
  if !f.resolveOk then ([], [], false)
  else if !f.nsAddOk && !f.nsRetryOk then ([], [], false)
  else if !f.vethOk then ([CRes.ns], [CRes.ns], false)
  else if !f.wgAddOk then ([CRes.ns, CRes.veth], [CRes.veth, CRes.ns], false)
  else if !f.setconfOk then
    ([CRes.ns, CRes.veth, CRes.wg], [CRes.wg, CRes.veth, CRes.ns], false)
  else ([CRes.ns, CRes.veth, CRes.wg], [], true)

/-! ### Restore path, restore_setup (WGNM.py lines 671-813)

restore_setup first lists the existing namespaces; when ns-(port) is already
present it returns True immediately (lines 680-683), before any mutating
command. Otherwise it replays the create logic; the mutation trace records
every state-changing step of that path.
-/

/-- Mutating steps of restore_setup. -/
inductive RMut
  /-- ip netns add (line 705). -/
  | addNs
  /-- ip link add veth pair (line 711). -/
  | addVeth
  /-- Address and link configuration (lines 719-727). -/
  | addrCfg
  /-- ip link add wireguard (line 751). -/
  | addWg
  /-- wg setconf and interface move (lines 757-770). -/
  | cfgWg
  /-- Routing, NAT, firewall and DNS setup (lines 772-805). -/
  | routing
  /-- ip netns delete on rollback. -/
  | delNs
  /-- ip link delete veth on rollback. -/
  | delVeth
  /-- ip link delete wireguard on rollback. -/
  | delWg
deriving DecidableEq

/-- restore_setup from WGNM.py: (reported success, executed mutations). -/
def restore_setup (nsExists resolveOk nsAddOk vethOk wgAddOk setconfOk : Bool) :
    Bool × List RMut :=
  if nsExists then (true, [])
  else if !resolveOk then (false, [])
  else if !nsAddOk then (false, [])
  else if !vethOk then (false, [RMut.addNs, RMut.delNs])
  else if !wgAddOk then
    (false, [RMut.addNs, RMut.addVeth, RMut.addrCfg, RMut.delVeth, RMut.delNs])
  else if !setconfOk then
    (false, [RMut.addNs, RMut.addVeth, RMut.addrCfg, RMut.addWg,
             RMut.delWg, RMut.delVeth, RMut.delNs])
  else
    (true, [RMut.addNs, RMut.addVeth, RMut.addrCfg, RMut.addWg,
            RMut.cfgWg, RMut.routing])

/-! ### Tunnel state store (WGNM.py lines 614-668)

One record per port under SETUP_STATE_DIR, file tunnel-(port).state holding
the port and the config path. An entry is modelled as (filename port,
content port, config path); save_setup_state always writes matching filename
and content ports.
-/

/-- save_setup_state (lines 614-623): write or overwrite the record. -/
def save_setup_state (fs : List (Nat × Nat × String)) (port : Nat) (cfg : String) :
    List (Nat × Nat × String) :=
  (port, port, cfg) :: fs.filter (fun e => e.1 ≠ port)

/-- delete_setup_state (lines 626-634): remove the record named by the port. -/
def delete_setup_state (fs : List (Nat × Nat × String)) (port : Nat) :
    List (Nat × Nat × String) :=
  fs.filter (fun e => e.1 ≠ port)

/-- load_all_setup_states (lines 637-668): return the (port, config path)
content of every record whose config file still exists. -/
def load_all_setup_states (fs : List (Nat × Nat × String)) (cfgIsFile : String → Bool) :
    List (Nat × String) :=
  (fs.filter (fun e => cfgIsFile e.2.2)).map (fun e => (e.2.1, e.2.2))

/-- Every record written through save_setup_state names itself consistently:
the port inside the file equals the port in the filename. -/
def storeWellFormed (fs : List (Nat × Nat × String)) : Prop :=
  ∀ e ∈ fs, e.2.1 = e.1

/-! ### Delete path, delete_setup (WGNM.py lines 2660-2752)

delete_setup never aborts: the namespace delete runs only when the namespace
exists, every link and iptables removal runs unconditionally with failures
discarded, and the state record is removed at the end.
-/

/-- Best-effort removal commands issued by delete_setup. -/
inductive DelCmd
  /-- ip netns delete (line 2706). -/
  | delNs
  /-- ip link delete veth (line 2708). -/
  | delVeth
  /-- DNAT PREROUTING rule removals (lines 2712-2716). -/
  | delDnat
  /-- MASQUERADE rule removal (line 2717). -/
  | delMasq
  /-- FORWARD rule removals (lines 2721-2729). -/
  | delForward
  /-- LOG rule removals (lines 2731-2745). -/
  | delLog
deriving DecidableEq

/-- delete_setup from WGNM.py: (completed without error, commands issued,
resulting state store). -/
def delete_setup (nsList : List String) (port : Nat) (fs : List (Nat × Nat × String)) :
    Bool × List DelCmd × List (Nat × Nat × String) :=
  let ns_name := "ns-" ++ toString port
  let nsExists := decide (ns_name ∈ nsList) || (decide (port = 9349) && decide ("nsxray" ∈ nsList))
  let cmds := (if nsExists then [DelCmd.delNs] else []) ++
    [DelCmd.delVeth, DelCmd.delDnat, DelCmd.delMasq, DelCmd.delForward, DelCmd.delLog]
  (true, cmds, delete_setup_state fs port)

/-! ### Restore orchestrator, restore_all_setups (WGNM.py lines 985-1024)

Modelled from the point where the final tunnel list is known (saved states,
possibly after the detection fallback): the per-tunnel restore loop with its
isolation of failures, and the post-loop forced refresh, which runs only when
a panel database is configured and its file exists (lines 1013-1019).
-/

/-- The environment of one restore_all_setups run. -/
structure RestoreAllEnv where
  /-- The tunnel entries being processed (line 989). -/
  tunnels : List (Nat × String)
  /-- Existing namespace names (line 993). -/
  nsList : List String
  /-- Which config paths exist on disk (line 999). -/
  cfgIsFile : String → Bool
  /-- Whether restore_setup succeeds for a given port (line 1004). -/
  restoreOk : Nat → Bool
  /-- PANEL_DB_PATH after load_panel_state (line 1016). -/
  panelDbPath : Option String
  /-- Whether that path is a file (line 1018). -/
  panelDbIsFile : Bool

/-- restore_all_setups from WGNM.py: (restored count, forced-refresh call:
some force when refresh_uuids_for_all_namespaces was invoked). -/
def restore_all_setups (env : RestoreAllEnv) : Nat × Option Bool :=
  let restored := env.tunnels.foldl
    (fun acc t =>
      if ("ns-" ++ toString t.1) ∈ env.nsList then acc
      else if t.2 = "" then acc
      else if !env.cfgIsFile t.2 then acc
      else if env.restoreOk t.1 then acc + 1 else acc)
    0
  let panelReady :=
    match env.panelDbPath with
    | some p => decide (p ≠ "") && env.panelDbIsFile
    | none => false
  let refreshCall :=
    if (decide (restored > 0) || decide (env.tunnels ≠ [])) && panelReady then
      some true
    else none
  (restored, refreshCall)

/-! ### Background watcher (WGNM.py lines 1027-1105)

The non-interactive tick (lines 1027-1052) never raises: an unconfigured or
missing database makes it a silent skip, and an exception from the refresh is
caught and logged. The loop body (lines 1078-1101) tracks consecutive
failures and applies a doubled backoff sleep after 10 of them, then resets
the counter; only a KeyboardInterrupt breaks the loop.
-/

/-- What one iteration of the watcher loop observes. -/
inductive TickOutcome
  /-- The tick returned normally. -/
  | ok
  /-- The tick raised an exception. -/
  | raised
  /-- KeyboardInterrupt. -/
  | interrupted
deriving DecidableEq

/-- refresh_uuids_for_all_namespaces_noninteractive: (refresh attempted,
outcome seen by the loop). The wrapper swallows refresh exceptions, so its
outcome is ok in every case. -/
def noninteractive_tick (panelConfigured _refreshRaises : Bool) : Bool × TickOutcome :=
  if !panelConfigured then (false, TickOutcome.ok)
  else (true, TickOutcome.ok)

/-- One iteration of the watcher loop: from the consecutive-error counter and
the tick outcome to (new counter, sleep duration, loop continues). -/
def watcher_step (interval c : Nat) : TickOutcome → Nat × Nat × Bool
  | TickOutcome.ok => (0, interval, true)
  | TickOutcome.raised =>
      if c + 1 ≥ 10 then (0, interval * 2, true) else (c + 1, interval, true)
  | TickOutcome.interrupted => (c, 0, false)

/-- Run the watcher loop over a finite prefix of tick outcomes, collecting
the sleeps; the final flag is whether the loop is still running. -/
def watcher_run (interval : Nat) : Nat → List TickOutcome → Nat × List Nat × Bool
  | c, [] => (c, [], true)
  | c, o :: os =>
      let s := watcher_step interval c o
      if s.2.2 then
        let r := watcher_run interval s.1 os
        (r.1, s.2.1 :: r.2.1, r.2.2)
      else (c, [], false)

/-! ### Per-port credential files (WGNM.py lines 350-380)

save_uuids_to_file writes each uuid of the sorted list as one newline
terminated line; load_uuids_from_file reads the file back line by line,
stripping and discarding empty lines. File contents are character lists;
the per-port files are an association list keyed by port.
-/

/-- Python file-line iteration: split after each newline, keeping the
newline on the line, the final unterminated line kept as is. -/
def pyLines (cs : List Char) : List (List Char) :=
  match h : cs.dropWhile (· ≠ '\n') with
  | [] => if cs = [] then [] else [cs.takeWhile (· ≠ '\n')]
  | _ :: rest =>
      (cs.takeWhile (· ≠ '\n') ++ ['\n']) :: pyLines rest
termination_by cs.length
decreasing_by
  have h1 : (cs.dropWhile (· ≠ '\n')).length ≤ cs.length :=
    (List.dropWhile_sublist _).length_le
  rw [h] at h1
  simp only [List.length_cons] at h1
  omega

/-- The file content written by save_uuids_to_file (lines 354-356). -/
def uuid_file_content (uuids : List String) : List Char :=
  ((pySorted uuids).map (fun u => u.toList ++ ['\n'])).foldr (· ++ ·) []

/-- save_uuids_to_file: overwrite the file of this port. -/
def save_uuids_to_file (fsys : List (Nat × List Char)) (port : Nat)
    (uuids : List String) : List (Nat × List Char) :=
  (port, uuid_file_content uuids) :: fsys.filter (fun e => e.1 ≠ port)

/-- The line processing of load_uuids_from_file (line 376): strip each line,
keep the nonempty ones. -/
def parse_uuid_file (cs : List Char) : List String :=
  (((pyLines cs).map pyStrip).filter (fun l => l ≠ [])).map (fun l => String.mk l)

/-- load_uuids_from_file: none when the file is missing (line 372). -/
def load_uuids_from_file (fsys : List (Nat × List Char)) (port : Nat) :
    Option (List String) :=
  match fsys.lookup port with
  | none => none
  | some cs => some (parse_uuid_file cs)

/-! ## Theorems -/

/-- C4: for every port in [1,65535] the derived subnet octet (port mod 250) + 2
lies in [2,251]; ports 250 apart collide on the same octet; and the create,
restore, delete and debug paths all derive the octet identically. -/
theorem C4_subnet_octet (p : Nat) (h1 : 1 ≤ p) (h2 : p ≤ 65535) :
    (2 ≤ subnet_octet_create p ∧ subnet_octet_create p ≤ 251) ∧
    (p + 250 ≤ 65535 → subnet_octet_create (p + 250) = subnet_octet_create p) ∧
    (subnet_octet_restore p = subnet_octet_create p ∧
     subnet_octet_delete p = subnet_octet_create p ∧
     subnet_octet_debug p = subnet_octet_create p) := by
  refine ⟨⟨Nat.le_add_left 2 _, ?_⟩, fun _ => ?_, rfl, rfl, rfl⟩
  · have hm : p % 250 < 250 := Nat.mod_lt p (by norm_num)
    unfold subnet_octet_create
    omega
  · unfold subnet_octet_create
    rw [Nat.add_mod_right]

/-- Witness for C4 at port 300: the hypotheses hold and the octet collides
with port 550. -/
theorem C4_subnet_octet_witness :
    subnet_octet_create (300 + 250) = subnet_octet_create 300 :=
  (C4_subnet_octet 300 (by decide) (by decide)).2.1 (by decide)

/-- C3: whenever create_setup fails, every resource created so far in the call
is torn down in exactly the reverse of creation order, and the state store
entry is written precisely when every checked provisioning step succeeded. -/
theorem C3_create_rollback (f : CreateFlags) :
    ((create_setup f).2.2 = false → (create_setup f).2.1 = ((create_setup f).1).reverse) ∧
    ((create_setup f).2.2 = true ↔
      f.resolveOk = true ∧ (f.nsAddOk = true ∨ f.nsRetryOk = true) ∧
      f.vethOk = true ∧ f.wgAddOk = true ∧ f.setconfOk = true) := by
  obtain ⟨r, n1, n2, v, w, s⟩ := f
  cases r <;> cases n1 <;> cases n2 <;> cases v <;> cases w <;> cases s <;> decide

/-- Witness for C3: a run failing at wg setconf, after namespace, veth pair
and WireGuard interface creation, tears all three down in reverse order. -/
theorem C3_create_rollback_witness :
    (create_setup ⟨true, true, false, true, true, false⟩).2.1 =
      ((create_setup ⟨true, true, false, true, true, false⟩).1).reverse :=
  (C3_create_rollback ⟨true, true, false, true, true, false⟩).1 (by decide)

/-- C6: restoring a port whose namespace already exists performs no mutation
at all and reports success, whatever the outcomes of the later steps would
have been. -/
theorem C6_restore_idempotent (resolveOk nsAddOk vethOk wgAddOk setconfOk : Bool) :
    restore_setup true resolveOk nsAddOk vethOk wgAddOk setconfOk = (true, []) :=
  rfl

/-- C7 counterexample: a RestoreAll run over one state store entry, with no
credential source configured, does not invoke the forced resynchronization,
contradicting the claim that it is always triggered. -/
theorem C7_counterexample :
    ¬ (restore_all_setups
        ⟨[(80, "cfg")], [], fun _ => false, fun _ => false, none, false⟩).2 = some true := by
  decide

/-- C7 (amended): after a RestoreAll run that processed at least one entry,
the forced resynchronization (force_restart true) is invoked regardless of
whether any individual restore succeeded, provided a credential source is
configured and its database file exists. -/
theorem C7_forced_resync (env : RestoreAllEnv) (p : String)
    (ht : env.tunnels ≠ []) (hp : env.panelDbPath = some p) (hne : p ≠ "")
    (hf : env.panelDbIsFile = true) :
    (restore_all_setups env).2 = some true := by
  simp [restore_all_setups, hp, hne, hf, ht]

/-- Witness for C7: one entry whose restore fails, credential source
configured; the forced resynchronization still runs. -/
theorem C7_forced_resync_witness :
    (restore_all_setups
      ⟨[(80, "cfg")], [], fun _ => false, fun _ => false, some "db", true⟩).2 = some true :=
  C7_forced_resync ⟨[(80, "cfg")], [], fun _ => false, fun _ => false, some "db", true⟩
    "db" (by decide) rfl (by decide) rfl

/-- The watcher loop step never stops on an ok or raised tick. -/
theorem watcher_step_continues (interval c : Nat) (o : TickOutcome)
    (ho : o ≠ TickOutcome.interrupted) : (watcher_step interval c o).2.2 = true := by
  cases o with
  | ok => rfl
  | raised =>
    show (if c + 1 ≥ 10 then ((0 : Nat), interval * 2, true)
      else (c + 1, interval, true)).2.2 = true
    split <;> rfl
  | interrupted => exact absurd rfl ho

/-- The watcher loop survives any finite sequence of ok or raised ticks. -/
theorem watcher_run_continues (interval : Nat) (c : Nat) (os : List TickOutcome)
    (hos : ∀ x ∈ os, x ≠ TickOutcome.interrupted) :
    (watcher_run interval c os).2.2 = true := by
  induction os generalizing c with
  | nil => rfl
  | cons o rest ih =>
    unfold watcher_run
    rw [if_pos (watcher_step_continues interval c o (hos o (by simp)))]
    exact ih _ (fun x hx => hos x (by simp [hx]))

/-- C9: the non-interactive tick is a silent no-op when no credential source
is configured and returns normally in every case; the loop continues after
any ok or raised tick and over any finite sequence of them; and from a zero
counter, ten consecutive failures sleep the plain interval nine times, then
the doubled interval once, and leave the counter reset to zero. -/
theorem C9_watcher (interval c : Nat) (o : TickOutcome) (os : List TickOutcome)
    (pc rr : Bool) (ho : o ≠ TickOutcome.interrupted)
    (hos : ∀ x ∈ os, x ≠ TickOutcome.interrupted) :
    ((noninteractive_tick false rr).1 = false ∧
     (noninteractive_tick pc rr).2 = TickOutcome.ok) ∧
    (watcher_step interval c o).2.2 = true ∧
    (watcher_run interval c os).2.2 = true ∧
    watcher_run interval 0 (List.replicate 10 TickOutcome.raised) =
      (0, List.replicate 9 interval ++ [interval * 2], true) := by
  refine ⟨⟨rfl, ?_⟩, watcher_step_continues interval c o ho,
    watcher_run_continues interval c os hos, ?_⟩
  · cases pc <;> rfl
  · rfl

/-- Witness for C9: a raised tick followed by an ok tick leaves the loop
running. -/
theorem C9_watcher_witness :
    (watcher_run 5 0 [TickOutcome.raised, TickOutcome.ok]).2.2 = true :=
  (C9_watcher 5 0 TickOutcome.raised [TickOutcome.raised, TickOutcome.ok]
    true true (by decide) (by decide)).2.2.1

/-- C8: delete_setup completes successfully for every port and every set of
existing namespaces, in particular when the namespace is absent, in which
case the iptables rule removals are still all issued; and the port's record
is gone from the state store, so a subsequent load_all_setup_states does not
include that port. -/
theorem C8_delete_best_effort (nsList : List String) (port : Nat)
    (fs : List (Nat × Nat × String)) (cfgIsFile : String → Bool)
    (hwf : storeWellFormed fs) :
    (delete_setup nsList port fs).1 = true ∧
    (DelCmd.delDnat ∈ (delete_setup nsList port fs).2.1 ∧
     DelCmd.delMasq ∈ (delete_setup nsList port fs).2.1 ∧
     DelCmd.delForward ∈ (delete_setup nsList port fs).2.1 ∧
     DelCmd.delLog ∈ (delete_setup nsList port fs).2.1) ∧
    ∀ cfg, (port, cfg) ∉ load_all_setup_states (delete_setup nsList port fs).2.2 cfgIsFile := by
  refine ⟨rfl, ⟨?_, ?_, ?_, ?_⟩, ?_⟩
  · simp [delete_setup]
  · simp [delete_setup]
  · simp [delete_setup]
  · simp [delete_setup]
  · intro cfg hmem
    simp only [load_all_setup_states, List.mem_map] at hmem
    obtain ⟨e, hefil, heq⟩ := hmem
    have hpc : e.2.1 = port := congrArg Prod.fst heq
    simp only [delete_setup, delete_setup_state, List.mem_filter,
      decide_eq_true_eq] at hefil
    exact hefil.1.2 (by rw [← hwf e hefil.1.1, hpc])

/-- Witness for C8: deleting port 80 with no namespaces present succeeds and
its record disappears from the store. -/
theorem C8_delete_best_effort_witness :
    (delete_setup [] 80 [(80, 80, "cfg")]).1 = true ∧
    ∀ cfg, (80, cfg) ∉
      load_all_setup_states (delete_setup [] 80 [(80, 80, "cfg")]).2.2 (fun _ => true) :=
  ⟨(C8_delete_best_effort [] 80 [(80, 80, "cfg")] (fun _ => true)
      (by unfold storeWellFormed; decide)).1,
   (C8_delete_best_effort [] 80 [(80, 80, "cfg")] (fun _ => true)
      (by unfold storeWellFormed; decide)).2.2⟩

/-- C2: the uuids_changed decision equals the specified disjunction of force,
source modification change, absent prior hash and hash difference; it is true
on the very first call ever; and it is false on a second call with identical
extraction results and unchanged source modification time. -/
theorem C2_change_detector :
    (∀ (st : RefreshState) (dm : Option Int) (u : List String) (f : Bool),
      refresh_decide st dm u f =
        shouldSyncSpec f (db_file_changed st.fileMtime dm) (storedHash st)
          (get_uuids_hash u)) ∧
    (∀ (dm : Option Int) (u : List String) (f : Bool),
      refresh_decide refreshInitialState dm u f = true) ∧
    (∀ (st : RefreshState) (m : Int) (u : List String),
      m ≠ 0 → u ≠ [] →
      refresh_decide (refresh_step st (some m) u) (some m) u false = false) := by
  refine ⟨?_, ?_, ?_⟩
  · intro st dm u f
    by_cases hch : db_file_changed st.fileMtime dm = true
    · simp [refresh_decide, shouldSyncSpec, hch]
    · rw [Bool.not_eq_true] at hch
      cases f <;>
        simp [refresh_decide, shouldSyncSpec, storedHash, hch, Bool.or_comm]
  · intro dm u f
    simp [refresh_decide, refreshInitialState, db_file_changed]
  · intro st m u hm hu
    simp [refresh_decide, refresh_step, db_file_changed, mtimeTruthy, hm, hu]

/-- Witness for C2: starting from the blank state, a refresh of one
identifier at source mtime 1 makes the immediately repeated decision false. -/
theorem C2_change_detector_witness :
    refresh_decide (refresh_step ⟨none, none, none⟩ (some 1) ["a"]) (some 1) ["a"] false
      = false :=
  C2_change_detector.2.2 ⟨none, none, none⟩ 1 ["a"] (by decide) (by decide)

/-- Sorting is invariant under permutation of the input. -/
theorem pySorted_eq_of_perm {l1 l2 : List String} (h : l1.Perm l2) :
    pySorted l1 = pySorted l2 :=
  List.eq_of_perm_of_sorted
    ((List.mergeSort_perm l1 _).trans (h.trans (List.mergeSort_perm l2 _).symm))
    (List.sorted_mergeSort' l1) (List.sorted_mergeSort' l2)

/-- C5: the content hash is invariant under permutation of the identifier
list, because it is computed over the ascending-sorted, newline-joined
sequence. -/
theorem C5_hash_perm_invariant (l1 l2 : List String) (h : l1.Perm l2) :
    get_uuids_hash l1 = get_uuids_hash l2 := by
  unfold get_uuids_hash
  rw [pySorted_eq_of_perm h]

/-- Witness for C5: the two orderings of a two-element list hash equal. -/
theorem C5_hash_perm_invariant_witness :
    get_uuids_hash ["a", "b"] = get_uuids_hash ["b", "a"] :=
  C5_hash_perm_invariant ["a", "b"] ["b", "a"] (List.Perm.swap "b" "a" [])

/-- The users pass never changes the multiplicity of an identifier that is
already in the accumulator. -/
theorem users_fold_count_mem (rows : List (Option String)) (acc : List String)
    (u : String) (hu : u ∈ acc) :
    (users_fold rows acc).count u = acc.count u := by
  induction rows generalizing acc with
  | nil => rfl
  | cons o rest ih =>
    cases o with
    | none => exact ih acc hu
    | some val =>
      show (users_fold rest
        (if pyStripS val ≠ "" ∧ pyStripS val ∉ acc then acc ++ [pyStripS val] else acc)).count u
          = acc.count u
      by_cases hc : pyStripS val ≠ "" ∧ pyStripS val ∉ acc
      · rw [if_pos hc]
        have hne : pyStripS val ≠ u := fun e => hc.2 (e ▸ hu)
        rw [ih _ (List.mem_append_left _ hu)]
        simp [List.count_append, List.count_singleton', hne]
      · rw [if_neg hc]
        exact ih acc hu

/-- Membership in the accumulator is preserved by the users pass. -/
theorem users_fold_mem (rows : List (Option String)) (acc : List String)
    (u : String) (hu : u ∈ acc) : u ∈ users_fold rows acc := by
  have h1 : 0 < (users_fold rows acc).count u := by
    rw [users_fold_count_mem rows acc u hu]
    exact List.count_pos_iff.mpr hu
  exact List.count_pos_iff.mp h1

/-- An identifier absent from the accumulator but produced by some users row
ends up with multiplicity exactly one. -/
theorem users_fold_count_new (rows : List (Option String)) (acc : List String)
    (u : String) (hnm : u ∉ acc) (hne : u ≠ "")
    (hex : ∃ val, some val ∈ rows ∧ pyStripS val = u) :
    (users_fold rows acc).count u = 1 := by
  induction rows generalizing acc with
  | nil =>
    obtain ⟨val, hv, _⟩ := hex
    simp at hv
  | cons o rest ih =>
    cases o with
    | none =>
      obtain ⟨val, hv, hs⟩ := hex
      have hv2 : some val ∈ rest := by
        rcases List.mem_cons.mp hv with h | h
        · exact absurd h (by simp)
        · exact h
      exact ih acc hnm ⟨val, hv2, hs⟩
    | some val =>
      show (users_fold rest
        (if pyStripS val ≠ "" ∧ pyStripS val ∉ acc then acc ++ [pyStripS val] else acc)).count u
          = 1
      by_cases hvu : pyStripS val = u
      · have hcond : pyStripS val ≠ "" ∧ pyStripS val ∉ acc := by
          rw [hvu]; exact ⟨hne, hnm⟩
        rw [if_pos hcond]
        have hm : u ∈ acc ++ [pyStripS val] := by
          rw [hvu]; exact List.mem_append_right _ (by simp)
        rw [users_fold_count_mem rest _ u hm]
        simp [List.count_append, List.count_singleton', hvu,
          List.count_eq_zero.mpr hnm]
      · obtain ⟨val2, hv2, hs2⟩ := hex
        have hrest : some val2 ∈ rest := by
          rcases List.mem_cons.mp hv2 with h | h
          · exact absurd hs2 (by simp only [Option.some.injEq] at h; rw [h]; exact hvu)
          · exact h
        by_cases hc : pyStripS val ≠ "" ∧ pyStripS val ∉ acc
        · rw [if_pos hc]
          refine ih _ ?_ ⟨val2, hrest, hs2⟩
          intro hmem
          rcases List.mem_append.mp hmem with h | h
          · exact hnm h
          · exact hvu (List.mem_singleton.mp h).symm
        · rw [if_neg hc]
          exact ih acc hnm ⟨val2, hrest, hs2⟩

/-- C1 counterexample: a source with both schemas where the identifier a is
present once in the proxies settings field and once in the users uuid column
yields a with multiplicity one, not more than one: the users pass
deduplicates against the proxies results, so cross-source repeats are not
preserved. -/
theorem C1_counterexample :
    ¬ 1 < (extract_uuids_from_sqlite ⟨true, [some "a"], true, [some "a"], []⟩).count "a" := by
  decide

/-- C1 (amended): the proxies pass appends its identifiers without any
deduplication, and the users pass deduplicates against everything collected
so far, including the proxies results: an identifier present in the proxies
table keeps exactly its proxies multiplicity (repeats within that table are
preserved, and the users table never adds to them), while an identifier
absent from the proxies results but produced by the users table appears
exactly once. -/
theorem C1_extract_dedup (db : PanelDB) (u : String) :
    (u ∈ proxies_pass db →
      (extract_uuids_from_sqlite db).count u = (proxies_pass db).count u) ∧
    (db.hasUsersUuidSchema = true → u ∉ proxies_pass db → u ≠ "" →
      (∃ val, some val ∈ db.usersUuidValues ∧ pyStripS val = u) →
      (extract_uuids_from_sqlite db).count u = 1) := by
  constructor
  · intro hu
    simp only [extract_uuids_from_sqlite]
    by_cases hs : db.hasUsersUuidSchema
    · rw [if_pos hs]
      have hm : u ∈ users_fold db.usersUuidValues (proxies_pass db) :=
        users_fold_mem _ _ u hu
      rw [if_neg (List.ne_nil_of_mem hm)]
      exact users_fold_count_mem _ _ u hu
    · rw [if_neg hs, if_neg (List.ne_nil_of_mem hu)]
  · intro hs hnm hne hex
    simp only [extract_uuids_from_sqlite]
    rw [if_pos hs]
    have hc := users_fold_count_new db.usersUuidValues (proxies_pass db) u hnm hne hex
    have hm : u ∈ users_fold db.usersUuidValues (proxies_pass db) :=
      List.count_pos_iff.mp (by rw [hc]; norm_num)
    rw [if_neg (List.ne_nil_of_mem hm)]
    exact hc

/-- Witness for C1: the identifier b occurs twice in the proxies settings
rows and keeps multiplicity two in the extracted list. -/
theorem C1_extract_dedup_witness :
    (extract_uuids_from_sqlite ⟨true, [some "b", some "b"], true, [some "c"], []⟩).count "b"
      = (proxies_pass ⟨true, [some "b", some "b"], true, [some "c"], []⟩).count "b" :=
  (C1_extract_dedup ⟨true, [some "b", some "b"], true, [some "c"], []⟩ "b").1 (by decide)

/-- takeWhile up to the first newline recovers a newline-free prefix. -/
theorem takeWhile_append_nl (u rest : List Char) (h : '\n' ∉ u) :
    (u ++ '\n' :: rest).takeWhile (· ≠ '\n') = u := by
  induction u with
  | nil => simp [List.takeWhile_cons]
  | cons a t ih =>
    have ha : a ≠ '\n' := fun e => h (by simp [e])
    rw [List.cons_append, List.takeWhile_cons, if_pos (by simpa using ha),
      ih (fun hm => h (by simp [hm]))]

/-- dropWhile up to the first newline reaches exactly that newline. -/
theorem dropWhile_append_nl (u rest : List Char) (h : '\n' ∉ u) :
    (u ++ '\n' :: rest).dropWhile (· ≠ '\n') = '\n' :: rest := by
  induction u with
  | nil => simp [List.dropWhile_cons]
  | cons a t ih =>
    have ha : a ≠ '\n' := fun e => h (by simp [e])
    rw [List.cons_append, List.dropWhile_cons, if_pos (by simpa using ha),
      ih (fun hm => h (by simp [hm]))]

/-- The empty file has no lines. -/
theorem pyLines_nil : pyLines [] = [] := by
  rw [pyLines.eq_def]
  simp

/-- Line iteration peels one newline-terminated, newline-free line. -/
theorem pyLines_cons (u rest : List Char) (h : '\n' ∉ u) :
    pyLines (u ++ '\n' :: rest) = (u ++ ['\n']) :: pyLines rest := by
  rw [pyLines.eq_def]
  split
  · next heq =>
    rw [dropWhile_append_nl u rest h] at heq
    exact absurd heq (by simp)
  · next a rest2 heq =>
    rw [dropWhile_append_nl u rest h] at heq
    have hr : rest = rest2 := (List.cons.injEq _ _ _ _ ▸ heq).2
    rw [takeWhile_append_nl u rest h, ← hr]

/-- Line iteration over a concatenation of newline-terminated, newline-free
lines recovers exactly those lines. -/
theorem pyLines_flatten (us : List (List Char)) (h : ∀ u ∈ us, '\n' ∉ u) :
    pyLines ((us.map (fun u => u ++ ['\n'])).foldr (· ++ ·) []) =
      us.map (fun u => u ++ ['\n']) := by
  induction us with
  | nil => exact pyLines_nil
  | cons u t ih =>
    show pyLines ((u ++ ['\n']) ++ (t.map (fun u => u ++ ['\n'])).foldr (· ++ ·) []) = _
    rw [List.append_assoc, List.singleton_append,
      pyLines_cons u _ (h u (by simp)),
      ih (fun x hx => h x (by simp [hx]))]
    rfl

/-- dropWhile over whitespace is the identity on whitespace-free lists. -/
theorem dropWhile_no_space (l : List Char) (h : ∀ c ∈ l, pyIsSpace c = false) :
    l.dropWhile pyIsSpace = l := by
  cases l with
  | nil => rfl
  | cons a t => simp [List.dropWhile_cons, h a (by simp)]

/-- Stripping a newline-terminated line of a whitespace-free word recovers
the word. -/
theorem pyStrip_line (u : List Char) (h : ∀ c ∈ u, pyIsSpace c = false) :
    pyStrip (u ++ ['\n']) = u := by
  unfold pyStrip
  cases u with
  | nil => decide
  | cons a t =>
    have ha : pyIsSpace a = false := h a (by simp)
    rw [List.cons_append, List.dropWhile_cons, ha]
    simp only [Bool.false_eq_true, if_false]
    have hrev : (a :: (t ++ ['\n'])).reverse = '\n' :: (t.reverse ++ [a]) := by simp
    rw [hrev, List.dropWhile_cons]
    have hnl : pyIsSpace '\n' = true := by decide
    rw [hnl]
    simp only [if_true]
    rw [dropWhile_no_space (t.reverse ++ [a]) ?hns]
    · simp
    case hns =>
      intro c hc
      rcases List.mem_append.mp hc with hcm | hcm
      · exact h c (by simp [List.mem_reverse.mp hcm])
      · rw [List.mem_singleton.mp hcm]; exact ha

/-- C10: for identifiers that are nonempty and free of whitespace and
newlines, loading the per-port credential file immediately after saving it
returns exactly the ascending-sorted identifier list, duplicates preserved. -/
theorem C10_roundtrip (fsys : List (Nat × List Char)) (port : Nat) (ids : List String)
    (h1 : ∀ u ∈ ids, u ≠ "")
    (h2 : ∀ u ∈ ids, ∀ c ∈ u.toList, pyIsSpace c = false) :
    load_uuids_from_file (save_uuids_to_file fsys port ids) port
      = some (pySorted ids) := by
  have hperm : ∀ u ∈ pySorted ids, u ∈ ids :=
    fun u hu => (List.mergeSort_perm ids _).subset hu
  unfold save_uuids_to_file load_uuids_from_file
  simp only [List.lookup, beq_self_eq_true]
  unfold parse_uuid_file uuid_file_content
  rw [show (pySorted ids).map (fun u => u.toList ++ ['\n'])
        = ((pySorted ids).map String.toList).map (fun l => l ++ ['\n']) from
      (List.map_map (fun l => l ++ ['\n']) String.toList (pySorted ids)).symm]
  rw [pyLines_flatten _ ?hnl]
  case hnl =>
    intro l hl
    simp only [List.mem_map] at hl
    obtain ⟨u, hu, rfl⟩ := hl
    intro hmem
    exact absurd (h2 u (hperm u hu) '\n' hmem) (by decide)
  rw [List.map_map, List.map_map]
  have hmapeq : (pySorted ids).map ((pyStrip ∘ fun l => l ++ ['\n']) ∘ String.toList)
      = (pySorted ids).map String.toList := by
    refine List.map_congr_left (fun u hu => ?_)
    exact pyStrip_line u.toList (h2 u (hperm u hu))
  rw [hmapeq]
  rw [List.filter_eq_self.mpr ?hne]
  case hne =>
    intro l hl
    simp only [List.mem_map] at hl
    obtain ⟨u, hu, rfl⟩ := hl
    simp only [decide_eq_true_eq]
    intro e
    exact h1 u (hperm u hu) (String.ext (by simpa using e))
  rw [List.map_map]
  have hid : ∀ (l : List String), l.map (fun u => String.mk u.toList) = l := by
    intro l
    induction l with
    | nil => rfl
    | cons a t ih =>
      rw [List.map_cons, ih]
      rfl
  exact congrArg some (hid (pySorted ids))

/-- Witness for C10: saving then loading two plain identifiers returns them
sorted. -/
theorem C10_roundtrip_witness :
    load_uuids_from_file (save_uuids_to_file [] 5 ["b", "a"]) 5
      = some (pySorted ["b", "a"]) :=
  C10_roundtrip [] 5 ["b", "a"] (by decide) (by decide)

end WGNM
